import Mathlib

/- Verification of the THE-UNIQ-ID commitment-and-anchoring core.

Shallow embedding of:
  - the Keccak-256 hash (used by the server's keccak256 package and by the
    on-chain OpenZeppelin MerkleProof library),
  - the UNIQID Solidity contract (contract/contracts/UNIQID.sol):
    anchorRoot / verifyUser over an explicit ledger state,
  - OpenZeppelin MerkleProof.verify as called by UNIQID.verifyUser,
  - merkle.js buildPayloadString,
  - handlers.js: poseidonHashHexFromUtf8, poseidonHashHexFromFieldHex,
    normalizeEmail, completeRegistrationHandler, loginHandler.

Machine integers and bytes32 words are Nat with explicit masking; the
Poseidon permutation (circomlibjs) is kept abstract as function parameters
p1 (one field element) and p2 (two field elements); hex/decimal string
rendering is concrete. -/

set_option maxRecDepth 1000000

/- ===================== Keccak-256 ===================== -/

def mask64 : Nat := 0xffffffffffffffff

def rotl64 (x n : Nat) : Nat :=
  ((x <<< n) ||| (x >>> (64 - n))) &&& mask64

/-- Lane A[x][y] of the 5×5 Keccak state sits at flat index `x + 5*y`. -/
def laneGet (s : List Nat) (x y : Nat) : Nat :=
  s.getD (x % 5 + 5 * (y % 5)) 0

def keccakTheta (s : List Nat) : List Nat :=
  let c := fun x => laneGet s x 0 ^^^ laneGet s x 1 ^^^ laneGet s x 2 ^^^ laneGet s x 3 ^^^ laneGet s x 4
  let d := fun x => c ((x + 4) % 5) ^^^ rotl64 (c ((x + 1) % 5)) 1
  (List.range 25).map (fun i => s.getD i 0 ^^^ d (i % 5))

/-- Rotation offsets of the ρ step, generated by the standard (1,0)-orbit of
the π permutation: at step t the current lane gets offset (t+1)(t+2)/2 mod 64.
Entries are (x, y, offset); the missing lane (0,0) has offset 0. -/
def rhoList : List (Nat × Nat × Nat) :=
  ((List.range 24).foldl
    (fun (p : (Nat × Nat) × List (Nat × Nat × Nat)) t =>
      ((p.1.2, (2 * p.1.1 + 3 * p.1.2) % 5),
       p.2 ++ [(p.1.1, p.1.2, (t + 1) * (t + 2) / 2 % 64)]))
    ((1, 0), [])).2

def rhoOff (x y : Nat) : Nat :=
  ((rhoList.find? (fun e => e.1 == x && e.2.1 == y)).map (fun e => e.2.2)).getD 0

/-- Combined ρ and π steps: destination lane (X,Y) receives
rotl(A[(X+3Y)%5][X], ρ-offset of the source lane). -/
def keccakRhoPi (s : List Nat) : List Nat :=
  (List.range 25).map (fun i =>
    let X := i % 5
    let Y := i / 5
    let xs := (X + 3 * Y) % 5
    let ys := X
    rotl64 (laneGet s xs ys) (rhoOff xs ys))

def keccakChi (s : List Nat) : List Nat :=
  (List.range 25).map (fun i =>
    let x := i % 5
    let y := i / 5
    laneGet s x y ^^^ ((mask64 ^^^ laneGet s ((x + 1) % 5) y) &&& laneGet s ((x + 2) % 5) y))

def keccakRC : List Nat :=
  [0x0000000000000001, 0x0000000000008082, 0x800000000000808a, 0x8000000080008000,
   0x000000000000808b, 0x0000000080000001, 0x8000000080008081, 0x8000000000008009,
   0x000000000000008a, 0x0000000000000088, 0x0000000080008009, 0x000000008000000a,
   0x000000008000808b, 0x800000000000008b, 0x8000000000008089, 0x8000000000008003,
   0x8000000000008002, 0x8000000000000080, 0x000000000000800a, 0x800000008000000a,
   0x8000000080008081, 0x8000000000008080, 0x0000000080000001, 0x8000000080008008]

def keccakIota (i : Nat) (s : List Nat) : List Nat :=
  match s with
  | [] => []
  | a :: rest => (a ^^^ keccakRC.getD i 0) :: rest

def keccakF (s : List Nat) : List Nat :=
  (List.range 24).foldl (fun s i => keccakIota i (keccakChi (keccakRhoPi (keccakTheta s)))) s

/-- Keccak padding (pad10*1 with domain byte 0x01, rate 136 bytes). -/
def keccakPad (msg : List Nat) : List Nat :=
  let q := 136 - msg.length % 136
  if q = 1 then msg ++ [0x81]
  else msg ++ [0x01] ++ List.replicate (q - 2) 0 ++ [0x80]

/-- Load 8 bytes little-endian into a 64-bit lane. -/
def loadLane (bytes : List Nat) : Nat :=
  bytes.reverse.foldl (fun a b => a * 256 + b) 0

def xorBlock (s block : List Nat) : List Nat :=
  (List.range 25).map (fun i =>
    s.getD i 0 ^^^ (if i < 17 then loadLane ((block.drop (8 * i)).take 8) else 0))

def absorbAux : Nat → List Nat → List Nat → List Nat
  | 0, s, _ => s
  | k + 1, s, m => absorbAux k (keccakF (xorBlock s (m.take 136))) (m.drop 136)

def laneBytesLE (w : Nat) : List Nat :=
  (List.range 8).map (fun i => (w >>> (8 * i)) &&& 0xff)

def bytesToNatBE (bs : List Nat) : Nat :=
  bs.foldl (fun a b => a * 256 + b) 0

/-- keccak256 digest of a byte string, as a 256-bit unsigned integer. -/
def keccak256 (msg : List Nat) : Nat :=
  let p := keccakPad msg
  let s := absorbAux (p.length / 136) (List.replicate 25 0) p
  bytesToNatBE (((List.range 4).map (fun i => laneBytesLE (s.getD i 0))).flatten)

/- ===================== Bytes / hex / string helpers ===================== -/

/-- A bytes32 value rendered as its 32 big-endian bytes
(Solidity `abi.encodePacked` of a `bytes32`). -/
def natToBytes32 (n : Nat) : List Nat :=
  (List.range 32).map (fun i => (n >>> (8 * (31 - i))) &&& 0xff)

/-- UTF-8 encoding of one character. -/
def utf8EncodeChar (c : Char) : List Nat :=
  let v := c.toNat
  if v < 0x80 then [v]
  else if v < 0x800 then [0xc0 ||| (v >>> 6), 0x80 ||| (v &&& 0x3f)]
  else if v < 0x10000 then
    [0xe0 ||| (v >>> 12), 0x80 ||| ((v >>> 6) &&& 0x3f), 0x80 ||| (v &&& 0x3f)]
  else
    [0xf0 ||| (v >>> 18), 0x80 ||| ((v >>> 12) &&& 0x3f),
     0x80 ||| ((v >>> 6) &&& 0x3f), 0x80 ||| (v &&& 0x3f)]

/-- `Buffer.from(s, 'utf8')` for the ASCII-and-beyond strings the server handles. -/
def utf8Bytes (s : String) : List Nat :=
  (s.data.map utf8EncodeChar).flatten

/-- `BigInt.prototype.toString(16)`: lowercase hex digits, no 0x, no padding. -/
def natToHexString (n : Nat) : String :=
  (Nat.toDigits 16 n).asString

def hexDigitVal (c : Char) : Option Nat :=
  if '0' ≤ c ∧ c ≤ '9' then some (c.toNat - 48)
  else if 'a' ≤ c ∧ c ≤ 'f' then some (c.toNat - 87)
  else if 'A' ≤ c ∧ c ≤ 'F' then some (c.toNat - 55)
  else none

/-- `BigInt(s)` for a 0x-prefixed hex string; `none` models the thrown
`SyntaxError` on malformed input. -/
def parseHexNat (s : String) : Option Nat :=
  match s.data with
  | '0' :: 'x' :: ds =>
    if ds = [] then none
    else ds.foldl (fun acc c => acc.bind (fun a => (hexDigitVal c).map (fun v => 16 * a + v))) (some 0)
  | _ => none

/-- left-pad a hex-digit string with '0' to 64 characters. -/
def pad64Hex (s : String) : String :=
  ⟨List.replicate (64 - s.length) '0' ++ s.data⟩

/-- `String.prototype.padStart(6, '0')`. -/
def padStartSix (s : String) : String :=
  ⟨List.replicate (6 - s.length) '0' ++ s.data⟩

/-- `String.prototype.toLowerCase()` on the ASCII strings the server handles. -/
def toLowerStr (s : String) : String :=
  ⟨s.data.map Char.toLower⟩

/-- Decimal value of a big-endian list of ASCII digit characters
(the `Number(...)` conversion applied to a matched digit string). -/
def parseDigitsVal (cs : List Char) : Nat :=
  cs.foldl (fun a c => 10 * a + (c.toNat - 48)) 0

deriving instance DecidableEq for Except

/- ===================== UNIQID contract (ledger side) ===================== -/

/-- On-chain state of the UNIQID contract: the id counter and the two
mappings (Solidity mappings default to 0). -/
structure Ledger where
  nextId : Nat
  roots : Nat → Nat
  rootToId : Nat → Nat

/-- Freshly deployed contract: `nextId = 0`, empty mappings. -/
def deployedLedger : Ledger :=
  { nextId := 0, roots := fun _ => 0, rootToId := fun _ => 0 }

/-- `UNIQID.anchorRoot`: require root ≠ 0, assign id `nextId + 1`, store the
root under that id and overwrite the reverse lookup. `Except.error` models a
revert. -/
def anchorRoot (L : Ledger) (root : Nat) : Except String (Nat × Ledger) :=
  if root = 0 then .error "root cannot be zero"
  else
    let id := L.nextId + 1
    .ok (id,
      { nextId := id,
        roots := fun i => if i = id then root else L.roots i,
        rootToId := fun r => if r = root then id else L.rootToId r })

/-- OpenZeppelin `MerkleProof._hashPair` applied through `_efficientHash`:
keccak256 of the two bytes32 values concatenated, smaller value first. -/
def keccakPacked (a b : Nat) : Nat :=
  keccak256 (natToBytes32 a ++ natToBytes32 b)

def hashPair (a b : Nat) : Nat :=
  if a < b then keccakPacked a b else keccakPacked b a

/-- OpenZeppelin `MerkleProof.processProof`: fold the proof into the leaf. -/
def processProof (proof : List Nat) (leaf : Nat) : Nat :=
  proof.foldl hashPair leaf

/-- OpenZeppelin `MerkleProof.verify`. -/
def merkleVerify (proof : List Nat) (root leaf : Nat) : Bool :=
  processProof proof leaf == root

/-- `UNIQID.verifyUser`: require `uniqId > 0 && uniqId <= nextId` (a revert,
modelled as `Except.error`, and checked before any proof folding), then
compare the folded candidate root with the stored root. -/
def verifyUser (L : Ledger) (uniqId : Nat) (leaf : Nat) (proof : List Nat) : Except String Bool :=
  if uniqId > 0 ∧ uniqId ≤ L.nextId then .ok (merkleVerify proof (L.roots uniqId) leaf)
  else .error "invalid uniqId"

/-- A sequence of `anchorRoot` calls; stops at the first revert.
Returns the assigned ids in call order together with the final state. -/
def anchorMany : Ledger → List Nat → Except String (List Nat × Ledger)
  | L, [] => .ok ([], L)
  | L, r :: rs =>
    match anchorRoot L r with
    | .error e => .error e
    | .ok (id, L') => (anchorMany L' rs).map (fun p => (id :: p.1, p.2))

/-- Modelled from the spec (§4.2, §4.5): fold a membership proof into a leaf
using a two-input hash H with the sibling-ordering convention "left operand is
the lower tree index"; `pos` is the implicit position of the current node at
the current level. This is the fold the claim says `verifyUser` performs;
it is compared against the `processProof` fold the contract actually runs. -/
def specConventionFold (H : Nat → Nat → Nat) : Nat → List Nat → Nat → Nat
  | _, [], leaf => leaf
  | pos, s :: rest, leaf =>
    specConventionFold H (pos / 2) rest (if pos % 2 = 0 then H leaf s else H s leaf)

/- ===================== merkle.js / handlers.js helpers ===================== -/

/-- merkle.js `buildPayloadString`: joins `uniq_id`, the lower-cased hashes,
salt and timestamp with '|', appending the lower-cased root only when it is a
nonempty (truthy) string. -/
def buildPayloadString (uniq_id email_hash parahash salt timestamp root : String) : String :=
  let parts := [uniq_id, toLowerStr email_hash, toLowerStr parahash, toLowerStr salt, timestamp]
  String.intercalate "|" (if root ≠ "" then parts ++ [toLowerStr root] else parts)

set_option linter.unusedVariables false in
/-- The shared call shape `buildPayloadString({leaf, root, email_hash,
parahash, salt, timestamp})` used by both completeRegistrationHandler and
loginHandler: the object passed has a `leaf` member and no `uniq_id` member,
while `buildPayloadString` destructures `uniq_id` (undefined, so "") and has
no `leaf` parameter at all — the leaf never reaches the payload. -/
def canonicalPayload (leaf root email_hash parahash salt timestamp : String) : String :=
  buildPayloadString "" email_hash parahash salt timestamp root

/-- handlers.js `normalizeEmail`: trim then lower-case. -/
def isJsSpace (c : Char) : Bool :=
  c = ' ' || c = '\t' || c = '\n' || c = '\x0d' || c = '\x0b' || c = '\x0c'

def trimStr (s : String) : String :=
  ⟨((s.data.dropWhile isJsSpace).reverse.dropWhile isJsSpace).reverse⟩

def normalizeEmail (e : String) : String :=
  toLowerStr (trimStr e)

/-- handlers.js `poseidonHashHexFromUtf8` with the Poseidon single-input
permutation abstracted as `p1`: keccak256 the UTF-8 bytes, feed the digest to
Poseidon, render as 0x-prefixed unpadded lowercase hex. -/
def poseidonHashHexFromUtf8 (p1 : Nat → Nat) (inputString : String) : String :=
  "0x" ++ natToHexString (p1 (keccak256 (utf8Bytes inputString)))

/-- handlers.js `poseidonHashHexFromFieldHex` with the Poseidon two-input
permutation abstracted as `p2`; `none` models the thrown error on
unparseable hex input. -/
def poseidonHashHexFromFieldHex (p2 : Nat → Nat → Nat) (hexA hexB : String) : Option String :=
  let aHex := if hexA.data.take 2 = ['0', 'x'] then hexA else "0x" ++ hexA
  let bHex := if hexB.data.take 2 = ['0', 'x'] then hexB else "0x" ++ hexB
  match parseHexNat aHex, parseHexNat bHex with
  | some aBig, some bBig => some (toLowerStr ("0x" ++ pad64Hex (natToHexString (p2 aBig bBig))))
  | _, _ => none

/-- handlers.js `hexToDecString`: null on falsy input, else the decimal
rendering; `none` also models the throw on malformed hex. -/
def hexToDecString (hexStr : String) : Option String :=
  if hexStr = "" then none else (parseHexNat hexStr).map Nat.repr

/-- The paraphrase strength check of completeRegistrationHandler: one label
pushed per failed category, in source order. -/
def paraphraseStrengthErrs (paraphrase : String) : List String :=
  (if paraphrase.length < 8 then ["≥8 chars"] else []) ++
  (if ¬ paraphrase.data.any (fun c => decide ('A' ≤ c ∧ c ≤ 'Z')) then ["uppercase"] else []) ++
  (if ¬ paraphrase.data.any (fun c => decide ('a' ≤ c ∧ c ≤ 'z')) then ["lowercase"] else []) ++
  (if ¬ paraphrase.data.any (fun c => decide ('0' ≤ c ∧ c ≤ '9')) then ["digit"] else []) ++
  (if ¬ paraphrase.data.any (fun c => ['!', '@', '#', '$', '%', '^', '&', '*'].contains c) then ["special"] else [])

/- ===================== Registration orchestrator ===================== -/

/-- The downloadable minimal package assembled by completeRegistrationHandler. -/
structure Package where
  uniq_id : Option String
  email_hash : String
  email_hash_dec : Option String
  parahash : String
  parahash_dec : Option String
  salt : String
  timestamp : String
  root : String
  root_dec : Option String
  leaf : String
  leaf_dec : Option String
  proof : List String
  signer : Option String
  signature : Option String
deriving DecidableEq

/-- HTTP-level response of completeRegistrationHandler (the fields the
claims are about). -/
structure RegResponse where
  status : Nat
  success : Bool
  error : Option String := none
  message : Option String := none
  anchorTxHash : Option String := none
  package : Option Package := none
deriving DecidableEq

/-- handlers.js `completeRegistrationHandler` from the point where the email
is recovered from the verified token. Abstracted collaborators: `p1`/`p2` the
Poseidon permutations, `isEmail` the validator, `sign` the wallet's
signMessage, `anchorTx` the outcome of submitting and awaiting the
anchorRoot transaction, `idRecovered` the assigned id as recovered from
rootToId or the RootAnchored event (`none` when both fail), `txHash` the
transaction hash if available. `saltHex` and `timestampIso` are the fresh
randomness and clock reading of this run. -/
def completeRegistration
    (p1 : Nat → Nat) (p2 : Nat → Nat → Nat)
    (isEmail : String → Bool)
    (emailRaw paraphrase saltHex timestampIso : String)
    (walletPresent addrPresent : Bool)
    (signerAddress : String)
    (sign : String → String)
    (anchorTx : Except String Unit)
    (idRecovered : Option Nat)
    (txHash : Option String) : RegResponse :=
  let email := normalizeEmail emailRaw
  if ¬ isEmail email then
    { status := 400, success := false, error := some "Invalid email in token." }
  else
    let errs := paraphraseStrengthErrs paraphrase
    if errs ≠ [] then
      { status := 400, success := false,
        error := some ("Paraphrase needs: " ++ String.intercalate ", " errs) }
    else
      let emailHashHex := poseidonHashHexFromUtf8 p1 email
      let paraHashHex := poseidonHashHexFromUtf8 p1 paraphrase
      match poseidonHashHexFromFieldHex p2 emailHashHex paraHashHex with
      | none => { status := 500, success := false, error := some "Failed to compute leaf/root." }
      | some combined =>
        let leafHex := combined
        let rootHex := leafHex
        let proofHexArr : List String := []
        let canonical := canonicalPayload leafHex rootHex emailHashHex paraHashHex saltHex timestampIso
        let signature := if walletPresent then some (sign canonical) else none
        let pkg : Package := {
          uniq_id := none
          email_hash := emailHashHex, email_hash_dec := hexToDecString emailHashHex
          parahash := paraHashHex, parahash_dec := hexToDecString paraHashHex
          salt := saltHex, timestamp := timestampIso
          root := rootHex, root_dec := hexToDecString rootHex
          leaf := leafHex, leaf_dec := hexToDecString leafHex
          proof := proofHexArr
          signer := if walletPresent then some signerAddress else none
          signature := signature }
        if ¬ (walletPresent ∧ addrPresent) then
          { status := 200, success := true,
            message := some "Contract/wallet not configured; root not anchored. Set SEP_RPC, CONTRACT_ADDR, DEPLOYER_PRIVATE_KEY in .env for on-chain anchoring.",
            anchorTxHash := none, package := some pkg }
        else
          match anchorTx with
          | .error _ =>
            { status := 500, success := false, error := some "Failed to anchor root on-chain." }
          | .ok _ =>
            let uniqAssignedString := idRecovered.map (fun n => "UNIQ-" ++ padStartSix (Nat.repr n))
            let pkg := { pkg with uniq_id := uniqAssignedString }
            { status := 200, success := true,
              message := some (match txHash with
                | some h => "✅ Root successfully anchored on-chain. Tx Hash: " ++ h
                | none => "Root was submitted (tx created). Tx Hash: N/A"),
              anchorTxHash := txHash, package := some pkg }

/- ===================== Login orchestrator ===================== -/

/-- A presented package at login: every field may be absent or null (both
modelled as `none`). -/
structure LoginPkg where
  uniq_id : Option String
  email_hash : Option String
  parahash : Option String
  salt : Option String
  timestamp : Option String
  root : Option String
  leaf : Option String
  proof : Option (List String)
  signer : Option String
  signature : Option String
deriving DecidableEq

/-- The required-fields loop of loginHandler, in source order; returns the
first missing field. -/
def missingField (p : LoginPkg) : Option String :=
  if p.uniq_id = none then some "uniq_id"
  else if p.email_hash = none then some "email_hash"
  else if p.parahash = none then some "parahash"
  else if p.salt = none then some "salt"
  else if p.timestamp = none then some "timestamp"
  else if p.root = none then some "root"
  else if p.leaf = none then some "leaf"
  else if p.proof = none then some "proof"
  else if p.signer = none then some "signer"
  else if p.signature = none then some "signature"
  else none

/-- The regex match `/^UNIQ-(\d+)$/` followed by `Number(...)` on the
captured digits. -/
def parseUniq (s : String) : Option Nat :=
  match s.data with
  | 'U' :: 'N' :: 'I' :: 'Q' :: '-' :: rest =>
    if rest ≠ [] ∧ rest.all (fun c => decide ('0' ≤ c ∧ c ≤ '9')) then
      some (parseDigitsVal rest)
    else none
  | _ => none

def allSome : List (Option Nat) → Option (List Nat)
  | [] => some []
  | none :: _ => none
  | some x :: rest => (allSome rest).map (fun l => x :: l)

/-- HTTP-level response of loginHandler; `session` is the issued session
claim (uniq_id string and numeric id bound into the JWT), `none` when no
session is issued. -/
structure LoginResponse where
  status : Nat
  success : Bool
  error : Option String := none
  session : Option (String × Nat) := none
deriving DecidableEq

/-- handlers.js `loginHandler`. Abstracted collaborators: `recover` is
ethers.verifyMessage (address recovery from payload and signature; `none`
models the thrown error on a malformed signature), `providerConfigured` the
presence of provider and contract address, `L` the on-chain state backing
`verifyUser`. A contract revert or a hex-conversion failure in the ethers
call layer surfaces as the caught 500 error. -/
def loginHandler (L : Ledger) (providerConfigured : Bool)
    (recover : String → String → Option String)
    (p : LoginPkg) : LoginResponse :=
  match missingField p with
  | some f => { status := 400, success := false, error := some ("Missing package field: " ++ f) }
  | none =>
    let canonical := canonicalPayload (p.leaf.getD "") (p.root.getD "") (p.email_hash.getD "")
      (p.parahash.getD "") (p.salt.getD "") (p.timestamp.getD "")
    match recover canonical (p.signature.getD "") with
    | none => { status := 400, success := false, error := some "Invalid signature format." }
    | some recovered =>
      if toLowerStr recovered ≠ toLowerStr (p.signer.getD "") then
        { status := 400, success := false, error := some "Signature not issued by expected signer." }
      else
        match parseUniq (p.uniq_id.getD "") with
        | none =>
          { status := 400, success := false,
            error := some "Invalid or missing uniq_id (anchored id required for on-chain verification)." }
        | some numericId =>
          if numericId = 0 then
            { status := 400, success := false, error := some "Invalid numeric uniq id in package." }
          else if ¬ providerConfigured then
            { status := 500, success := false, error := some "Contract/provider not configured on server." }
          else
            match parseHexNat (p.leaf.getD ""), allSome ((p.proof.getD []).map parseHexNat) with
            | some leafNat, some proofNats =>
              match verifyUser L numericId leafNat proofNats with
              | .error _ =>
                { status := 500, success := false, error := some "On-chain verification failed." }
              | .ok false =>
                { status := 400, success := false, error := some "Proof not valid against on-chain root." }
              | .ok true =>
                { status := 200, success := true, session := some (p.uniq_id.getD "", numericId) }
            | _, _ =>
              { status := 500, success := false, error := some "On-chain verification failed." }

/-- JSON round-trip of a downloaded package into a login request: present
fields arrive as values, null fields as null. -/
def packageToLogin (p : Package) : LoginPkg :=
  { uniq_id := p.uniq_id, email_hash := some p.email_hash, parahash := some p.parahash,
    salt := some p.salt, timestamp := some p.timestamp, root := some p.root,
    leaf := some p.leaf, proof := some p.proof, signer := p.signer, signature := p.signature }

/- ===================== Concrete sample states ===================== -/

/-- Ledger state holding exactly one anchored root `r` under id 1. -/
def singleRootLedger (r : Nat) : Ledger :=
  { nextId := 1, roots := fun i => if i = 1 then r else 0,
    rootToId := fun x => if x = r then 1 else 0 }

/-- The ledger state reached from deployment by anchoring the root 5 twice. -/
def twoAnchorLedger : Ledger :=
  { nextId := 2,
    roots := fun i => if i = 2 then 5 else if i = 1 then 5 else 0,
    rootToId := fun x => if x = 5 then 2 else if x = 5 then 1 else 0 }

/-- The leaf/root hex produced by a registration run whose abstract Poseidon
pair hash returns 1. -/
def sampleLeafHex : String :=
  "0x0000000000000000000000000000000000000000000000000000000000000001"

/-- The package produced by a sample un-anchored registration run
(no wallet configured) with p1 = const 0, p2 = const 1, salt "0xab",
timestamp "T". -/
def samplePkg : Package :=
  { uniq_id := none, email_hash := "0x0", email_hash_dec := some "0",
    parahash := "0x0", parahash_dec := some "0", salt := "0xab", timestamp := "T",
    root := sampleLeafHex, root_dec := some "1",
    leaf := sampleLeafHex, leaf_dec := some "1",
    proof := [], signer := none, signature := none }

/-- As `samplePkg` but for a second run of the same holder inputs with a
different salt ("0xcd") and timestamp ("T2"). -/
def samplePkg2 : Package :=
  { samplePkg with salt := "0xcd", timestamp := "T2" }

/-- The package of a sample anchored registration run (wallet and contract
configured, id 123 recovered, sign = const "sig", signer "0xS"). -/
def samplePkgAnchored : Package :=
  { samplePkg with uniq_id := some "UNIQ-000123", signer := some "0xS", signature := some "sig" }

/-- The package of a sample anchored registration run whose id recovery
failed (rootToId and event scan both unavailable). -/
def samplePkgNoId : Package :=
  { samplePkg with signer := some "0xS", signature := some "sig" }

/-- A syntactically complete presented login package claiming the never
anchored id 2 against a single-anchor ledger. -/
def sampleLoginPkgId2 : LoginPkg :=
  { uniq_id := some "UNIQ-000002", email_hash := some "0x3", parahash := some "0x5",
    salt := some "0xab", timestamp := some "T", root := some "0x7", leaf := some "0x7",
    proof := some [], signer := some "0xa", signature := some "sig" }

/- ===================== Sanity: Keccak-256 test vector ===================== -/

/-- Keccak-256 of the empty byte string (standard test vector), validating
the permutation, padding, lane packing and squeezing of the embedding. -/
theorem keccak256_empty_vector :
    keccak256 [] = 0xc5d2460186f7233c927e7db2dcc703c0e500b653ca82273b7bfad8045d85a470 := by
  decide

/- ===================== C1 ===================== -/

/-- C1: the claim says flipping any single bit of Leaf, Root, either field
hash, Salt or Timestamp must change the canonical payload and so fail the
signature re-check. The code's `buildPayloadString` never reads the `leaf`
member of the object both handlers pass it, so a package whose leaf has its
low bit flipped (…aa → …ab) yields the *same* canonical payload and the
signature check still passes; single-bit flips in the other five fields do
change the payload. -/
theorem claimC1_leaf_tamper_keeps_payload :
    canonicalPayload
      "0x00000000000000000000000000000000000000000000000000000000000000aa"
      "0x0000000000000000000000000000000000000000000000000000000000000007"
      "0x0000000000000000000000000000000000000000000000000000000000000003"
      "0x0000000000000000000000000000000000000000000000000000000000000005"
      "0x0123456789abcdef0123456789abcdef" "2025-01-01T00:00:00.000Z" =
    canonicalPayload
      "0x00000000000000000000000000000000000000000000000000000000000000ab"
      "0x0000000000000000000000000000000000000000000000000000000000000007"
      "0x0000000000000000000000000000000000000000000000000000000000000003"
      "0x0000000000000000000000000000000000000000000000000000000000000005"
      "0x0123456789abcdef0123456789abcdef" "2025-01-01T00:00:00.000Z"
    ∧ ("0x00000000000000000000000000000000000000000000000000000000000000aa" : String) ≠
      "0x00000000000000000000000000000000000000000000000000000000000000ab"
    ∧ canonicalPayload
      "0x00000000000000000000000000000000000000000000000000000000000000aa"
      "0x0000000000000000000000000000000000000000000000000000000000000006"
      "0x0000000000000000000000000000000000000000000000000000000000000003"
      "0x0000000000000000000000000000000000000000000000000000000000000005"
      "0x0123456789abcdef0123456789abcdef" "2025-01-01T00:00:00.000Z" ≠
    canonicalPayload
      "0x00000000000000000000000000000000000000000000000000000000000000aa"
      "0x0000000000000000000000000000000000000000000000000000000000000007"
      "0x0000000000000000000000000000000000000000000000000000000000000003"
      "0x0000000000000000000000000000000000000000000000000000000000000005"
      "0x0123456789abcdef0123456789abcdef" "2025-01-01T00:00:00.000Z"
    ∧ canonicalPayload
      "0x00000000000000000000000000000000000000000000000000000000000000aa"
      "0x0000000000000000000000000000000000000000000000000000000000000007"
      "0x0000000000000000000000000000000000000000000000000000000000000002"
      "0x0000000000000000000000000000000000000000000000000000000000000005"
      "0x0123456789abcdef0123456789abcdef" "2025-01-01T00:00:00.000Z" ≠
    canonicalPayload
      "0x00000000000000000000000000000000000000000000000000000000000000aa"
      "0x0000000000000000000000000000000000000000000000000000000000000007"
      "0x0000000000000000000000000000000000000000000000000000000000000003"
      "0x0000000000000000000000000000000000000000000000000000000000000005"
      "0x0123456789abcdef0123456789abcdef" "2025-01-01T00:00:00.000Z"
    ∧ canonicalPayload
      "0x00000000000000000000000000000000000000000000000000000000000000aa"
      "0x0000000000000000000000000000000000000000000000000000000000000007"
      "0x0000000000000000000000000000000000000000000000000000000000000003"
      "0x0000000000000000000000000000000000000000000000000000000000000004"
      "0x0123456789abcdef0123456789abcdef" "2025-01-01T00:00:00.000Z" ≠
    canonicalPayload
      "0x00000000000000000000000000000000000000000000000000000000000000aa"
      "0x0000000000000000000000000000000000000000000000000000000000000007"
      "0x0000000000000000000000000000000000000000000000000000000000000003"
      "0x0000000000000000000000000000000000000000000000000000000000000005"
      "0x0123456789abcdef0123456789abcdef" "2025-01-01T00:00:00.000Z"
    ∧ canonicalPayload
      "0x00000000000000000000000000000000000000000000000000000000000000aa"
      "0x0000000000000000000000000000000000000000000000000000000000000007"
      "0x0000000000000000000000000000000000000000000000000000000000000003"
      "0x0000000000000000000000000000000000000000000000000000000000000005"
      "0x1123456789abcdef0123456789abcdef" "2025-01-01T00:00:00.000Z" ≠
    canonicalPayload
      "0x00000000000000000000000000000000000000000000000000000000000000aa"
      "0x0000000000000000000000000000000000000000000000000000000000000007"
      "0x0000000000000000000000000000000000000000000000000000000000000003"
      "0x0000000000000000000000000000000000000000000000000000000000000005"
      "0x0123456789abcdef0123456789abcdef" "2025-01-01T00:00:00.000Z"
    ∧ canonicalPayload
      "0x00000000000000000000000000000000000000000000000000000000000000aa"
      "0x0000000000000000000000000000000000000000000000000000000000000007"
      "0x0000000000000000000000000000000000000000000000000000000000000003"
      "0x0000000000000000000000000000000000000000000000000000000000000005"
      "0x0123456789abcdef0123456789abcdef" "2025-01-01T00:00:00.001Z" ≠
    canonicalPayload
      "0x00000000000000000000000000000000000000000000000000000000000000aa"
      "0x0000000000000000000000000000000000000000000000000000000000000007"
      "0x0000000000000000000000000000000000000000000000000000000000000003"
      "0x0000000000000000000000000000000000000000000000000000000000000005"
      "0x0123456789abcdef0123456789abcdef" "2025-01-01T00:00:00.000Z" := by
  refine ⟨rfl, by decide, by decide, by decide, by decide, by decide, by decide⟩

/- ===================== C3 ===================== -/

/-- C3: when the anchorRoot transaction fails, completeRegistrationHandler
returns a bare 500 failure with no package at all, although its own comment
says "return package with signature but anchored false" and the spec promises
the signed un-anchored package. Evaluated here at a concrete registration
whose anchoring call throws. -/
theorem claimC3_anchor_failure_drops_package :
    (completeRegistration (fun _ => 0) (fun _ _ => 1) (fun _ => true)
      "user@example.com" "Str0ng!Pass" "0x0123456789abcdef0123456789abcdef"
      "2025-01-01T00:00:00.000Z" true true "0xSignerAddr" (fun _ => "0xsig")
      (.error "tx failed") none none) =
    { status := 500, success := false, error := some "Failed to anchor root on-chain." } := by
  decide

/- ===================== C2 (amended part) ===================== -/

/-- C2 amended: `verifyUser` folds the proof into the leaf with OpenZeppelin's
pair step — keccak256 of the two values, ordered by value (commutative), not
by tree index — and returns true iff the folded candidate root equals the
stored root exactly; for the empty proofs the Commitment Builder actually
generates, the fold returns the leaf itself. -/
theorem claimC2_fold_and_compare :
    (∀ (L : Ledger) (id leaf : Nat) (proof : List Nat), 0 < id → id ≤ L.nextId →
      (verifyUser L id leaf proof = .ok true ↔ processProof proof leaf = L.roots id)) ∧
    (∀ a b : Nat, hashPair a b = hashPair b a) ∧
    (∀ leaf : Nat, processProof [] leaf = leaf) := by
  refine ⟨?_, ?_, fun leaf => rfl⟩
  · intro L id leaf proof h1 h2
    simp [verifyUser, h1, h2, merkleVerify]
  · intro a b
    unfold hashPair
    rcases lt_trichotomy a b with h | h | h
    · rw [if_pos h, if_neg (not_lt.mpr (le_of_lt h))]
    · subst h; rfl
    · rw [if_neg (not_lt.mpr (le_of_lt h)), if_pos h]

/-- Witness for C2: the amended statement applied at a concrete ledger,
id, leaf and proof. -/
theorem claimC2_fold_and_compare_witness :
    (verifyUser (singleRootLedger 5) 1 5 [] = .ok true ↔
      processProof [] 5 = (singleRootLedger 5).roots 1) ∧
    hashPair 3 4 = hashPair 4 3 ∧ processProof [] 7 = 7 :=
  ⟨claimC2_fold_and_compare.1 (singleRootLedger 5) 1 5 [] (by decide) (by decide),
   claimC2_fold_and_compare.2.1 3 4, claimC2_fold_and_compare.2.2 7⟩

/- ===================== C4 ===================== -/

/-- A run of successful `anchorRoot` calls assigns the consecutive ids
`nextId+1, nextId+2, …`, advances the counter by the number of calls, stores
the k-th root under the k-th assigned id, and leaves earlier records intact. -/
theorem anchorMany_assigns_consecutive_ids :
    ∀ (rs : List Nat) (L : Ledger), (∀ r ∈ rs, r ≠ 0) →
      ∃ L', anchorMany L rs = .ok (List.range' (L.nextId + 1) rs.length, L') ∧
        L'.nextId = L.nextId + rs.length ∧
        (∀ k, k < rs.length → L'.roots (L.nextId + 1 + k) = rs.getD k 0) ∧
        (∀ i, i ≤ L.nextId → L'.roots i = L.roots i) := by
  intro rs
  induction rs with
  | nil =>
    intro L _
    exact ⟨L, by simp [anchorMany], by simp, by simp, fun i _ => rfl⟩
  | cons r rs ih =>
    intro L h
    have hr : r ≠ 0 := h r (by simp)
    obtain ⟨L', hL', hn, hk, hp⟩ := ih
      { nextId := L.nextId + 1,
        roots := fun i => if i = L.nextId + 1 then r else L.roots i,
        rootToId := fun x => if x = r then L.nextId + 1 else L.rootToId x }
      (fun x hx => h x (by simp [hx]))
    dsimp only at hn hk hp
    refine ⟨L', ?_, ?_, ?_, ?_⟩
    · simp only [anchorMany, anchorRoot, if_neg hr, hL', Except.map]
      simp [List.range'_succ]
    · simp only [List.length_cons]
      omega
    · intro k hklt
      match k with
      | 0 =>
        have := hp (L.nextId + 1) (by simp)
        simpa using this
      | k + 1 =>
        have := hk k (by simpa using hklt)
        have harith : L.nextId + 1 + (k + 1) = L.nextId + 1 + 1 + k := by omega
        rw [harith]
        simpa using this
    · intro i hi
      have := hp i (by omega)
      rw [this]
      rw [if_neg (by omega)]

/-- C4: from a freshly deployed ledger, every run of successful `anchorRoot`
calls assigns exactly the ids 1, 2, …, n in order (strictly increasing from
1), whatever the roots; and anchoring the same nonzero root twice yields the
two distinct ids 1 and 2, each of which verifies independently afterwards
(leaf = root, empty proof). -/
theorem claimC4_monotonic_ids :
    (∀ (rs : List Nat), (∀ r ∈ rs, r ≠ 0) → ∀ (ids : List Nat) (L' : Ledger),
      anchorMany deployedLedger rs = .ok (ids, L') → ids = List.range' 1 rs.length) ∧
    (∀ r : Nat, r ≠ 0 →
      ∃ L', anchorMany deployedLedger [r, r] = .ok ([1, 2], L') ∧
        verifyUser L' 1 r [] = .ok true ∧ verifyUser L' 2 r [] = .ok true ∧ (1 : Nat) ≠ 2) := by
  constructor
  · intro rs hrs ids L' hmem
    obtain ⟨L'', h, -⟩ := anchorMany_assigns_consecutive_ids rs deployedLedger hrs
    rw [h] at hmem
    simpa [deployedLedger] using
      congrArg (fun e => match e with | Except.ok p => p.1 | _ => ([] : List Nat)) hmem.symm
  · intro r hr
    obtain ⟨L', hL', hn, hk, -⟩ :=
      anchorMany_assigns_consecutive_ids [r, r] deployedLedger (by simpa using hr)
    have h1 : L'.roots 1 = r := by simpa [deployedLedger] using hk 0 (by simp)
    have h2 : L'.roots 2 = r := by simpa [deployedLedger] using hk 1 (by simp)
    have hn2 : L'.nextId = 2 := by simpa [deployedLedger] using hn
    refine ⟨L', by simpa [deployedLedger, List.range'] using hL', ?_, ?_, by decide⟩
    · simp [verifyUser, merkleVerify, processProof, hn2, h1]
    · simp [verifyUser, merkleVerify, processProof, hn2, h2]

/-- Witness for C4: both parts applied at concrete roots, the first at the
run [5, 5] with its concrete resulting ledger. -/
theorem claimC4_monotonic_ids_witness :
    ([1, 2] : List Nat) = List.range' 1 2 ∧
    (∃ L', anchorMany deployedLedger [5, 5] = .ok ([1, 2], L') ∧
      verifyUser L' 1 5 [] = .ok true ∧ verifyUser L' 2 5 [] = .ok true ∧ (1 : Nat) ≠ 2) :=
  ⟨claimC4_monotonic_ids.1 [5, 5] (by decide) [1, 2] twoAnchorLedger rfl,
   claimC4_monotonic_ids.2 5 (by decide)⟩

/- ===================== Registration package characterization ===================== -/

/-- Whenever completeRegistrationHandler returns a package, its fields are
the Poseidon field hashes of the normalized email and the paraphrase, the
leaf is their Poseidon combination, root = leaf, the proof is empty, salt and
timestamp are this run's values, signer/signature are present iff a wallet
is configured, and uniq_id is the recovered id in UNIQ-display form (none
when unanchored or unrecovered). -/
theorem completeRegistration_package_spec
    (p1 : Nat → Nat) (p2 : Nat → Nat → Nat) (isEmail : String → Bool)
    (emailRaw paraphrase saltHex timestampIso : String)
    (walletPresent addrPresent : Bool) (signerAddress : String) (sign : String → String)
    (anchorTx : Except String Unit) (idRecovered : Option Nat) (txHash : Option String)
    (pkg : Package)
    (h : (completeRegistration p1 p2 isEmail emailRaw paraphrase saltHex timestampIso
        walletPresent addrPresent signerAddress sign anchorTx idRecovered txHash).package = some pkg) :
    pkg.email_hash = poseidonHashHexFromUtf8 p1 (normalizeEmail emailRaw) ∧
    pkg.parahash = poseidonHashHexFromUtf8 p1 paraphrase ∧
    poseidonHashHexFromFieldHex p2 pkg.email_hash pkg.parahash = some pkg.leaf ∧
    pkg.root = pkg.leaf ∧
    pkg.proof = [] ∧
    pkg.salt = saltHex ∧
    pkg.timestamp = timestampIso ∧
    pkg.signer = (if walletPresent then some signerAddress else none) ∧
    pkg.signature = (if walletPresent then
      some (sign (canonicalPayload pkg.leaf pkg.root pkg.email_hash pkg.parahash saltHex timestampIso))
      else none) ∧
    pkg.uniq_id = (if walletPresent ∧ addrPresent then
      idRecovered.map (fun n => "UNIQ-" ++ padStartSix (Nat.repr n)) else none) := by
  simp only [completeRegistration] at h
  split at h
  · exact absurd h (by simp)
  · split at h
    · exact absurd h (by simp)
    · split at h
      · exact absurd h (by simp)
      · rename_i combined hcomb
        split at h
        · rename_i hcfg
          dsimp only at h
          injection h with h
          subst h
          refine ⟨rfl, rfl, by simpa using hcomb, rfl, rfl, rfl, rfl, rfl, rfl, ?_⟩
          simp [if_neg hcfg]
        · split at h
          · exact absurd h (by simp)
          · rename_i hcfg _ _
            dsimp only at h
            injection h with h
            subst h
            refine ⟨rfl, rfl, by simpa using hcomb, rfl, rfl, rfl, rfl, rfl, rfl, ?_⟩
            simp [if_pos (not_not.mp hcfg)]

/- ===================== C5 ===================== -/

/-- C5: every package the registration orchestrator produces has root = leaf
and the empty proof (the single-leaf case), and ledger-side `verifyUser`
with an empty proof succeeds iff the claimed leaf equals exactly the root
stored for that (in-range) id. -/
theorem claimC5_single_leaf :
    (∀ (p1 : Nat → Nat) (p2 : Nat → Nat → Nat) (isEmail : String → Bool)
       (emailRaw paraphrase saltHex timestampIso : String)
       (walletPresent addrPresent : Bool) (signerAddress : String) (sign : String → String)
       (anchorTx : Except String Unit) (idRecovered : Option Nat) (txHash : Option String)
       (pkg : Package),
      (completeRegistration p1 p2 isEmail emailRaw paraphrase saltHex timestampIso
        walletPresent addrPresent signerAddress sign anchorTx idRecovered txHash).package = some pkg →
      pkg.root = pkg.leaf ∧ pkg.proof = []) ∧
    (∀ (L : Ledger) (id leaf : Nat), 0 < id → id ≤ L.nextId →
      (verifyUser L id leaf [] = .ok true ↔ leaf = L.roots id)) := by
  constructor
  · intro p1 p2 isEmail emailRaw paraphrase saltHex timestampIso w a signer sgn anc idr txh pkg h
    obtain ⟨-, -, -, h4, h5, -⟩ := completeRegistration_package_spec p1 p2 isEmail emailRaw
      paraphrase saltHex timestampIso w a signer sgn anc idr txh pkg h
    exact ⟨h4, h5⟩
  · intro L id leaf h1 h2
    simp only [verifyUser, if_pos (And.intro h1 h2), merkleVerify, processProof, List.foldl_nil]
    constructor
    · intro h
      injection h with h
      exact eq_of_beq (by simpa using h)
    · intro h
      subst h
      simp

/-- Witness for C5: a concrete un-anchored registration run and a concrete
ledger lookup. -/
theorem claimC5_single_leaf_witness :
    (samplePkg.root = samplePkg.leaf ∧ samplePkg.proof = []) ∧
    (verifyUser (singleRootLedger 9) 1 9 [] = .ok true ↔ 9 = (singleRootLedger 9).roots 1) :=
  ⟨claimC5_single_leaf.1 (fun _ => 0) (fun _ _ => 1) (fun _ => true)
      "e@x.co" "Str0ng!Pass" "0xab" "T" false false "0xS" (fun _ => "sig")
      (.ok ()) none none samplePkg (by decide),
   claimC5_single_leaf.2 (singleRootLedger 9) 1 9 (by decide) (by decide)⟩

/- ===================== C6 ===================== -/

/-- C6: for a numeric id outside 1 ≤ id ≤ nextId, `verifyUser` rejects with
the "invalid uniqId" revert before any proof folding (the result does not
depend on leaf or proof), and a login presenting such an id ends in a
rejection response with no session issued — a failure response, not a crash. -/
theorem claimC6_out_of_range_fails_closed :
    (∀ (L : Ledger) (id leaf : Nat) (proof : List Nat), ¬ (0 < id ∧ id ≤ L.nextId) →
      verifyUser L id leaf proof = .error "invalid uniqId") ∧
    (∀ (L : Ledger) (prov : Bool) (recover : String → String → Option String)
       (lp : LoginPkg) (uid : String) (n : Nat),
      lp.uniq_id = some uid → parseUniq uid = some n → ¬ (0 < n ∧ n ≤ L.nextId) →
      ∃ st e, loginHandler L prov recover lp =
        { status := st, success := false, error := e, session := none }) := by
  constructor
  · intro L id leaf proof h
    simp [verifyUser, if_neg h]
  · intro L prov recover lp uid n huid hn hrange
    have hv : ∀ x y, verifyUser L n x y = Except.error "invalid uniqId" := by
      intro x y
      simp [verifyUser, if_neg hrange]
    simp only [loginHandler, huid, Option.getD_some, hn, hv]
    repeat' (first | exact ⟨_, _, rfl⟩ | split)

/-- Witness for C6: the out-of-range contract call at id 2 on a fresh
single-anchor ledger, and a concrete login claiming the never anchored id 2. -/
theorem claimC6_out_of_range_fails_closed_witness :
    verifyUser (singleRootLedger 5) 2 7 [] = .error "invalid uniqId" ∧
    (∃ st e, loginHandler (singleRootLedger 5) true (fun _ _ => some "0xa") sampleLoginPkgId2 =
      { status := st, success := false, error := e, session := none }) :=
  ⟨claimC6_out_of_range_fails_closed.1 (singleRootLedger 5) 2 7 [] (by decide),
   claimC6_out_of_range_fails_closed.2 (singleRootLedger 5) true (fun _ _ => some "0xa")
     sampleLoginPkgId2 "UNIQ-000002" 2 rfl (by decide) (by decide)⟩

/- ===================== C7 ===================== -/

/-- C7: two registration runs with the same normalized email and paraphrase
produce identical EmailFieldHash, PassphraseFieldHash, Leaf and Root, whatever
their salts, timestamps, wallet configurations and anchoring outcomes: the
field hashes are deterministic in the text inputs and salt/timestamp never
enter the hash or leaf computation. -/
theorem claimC7_same_inputs_same_commitment :
    ∀ (p1 : Nat → Nat) (p2 : Nat → Nat → Nat) (isEmail : String → Bool)
      (emailRaw paraphrase salt1 ts1 salt2 ts2 : String)
      (w1 a1 w2 a2 : Bool) (signer1 signer2 : String) (sgn1 sgn2 : String → String)
      (anc1 anc2 : Except String Unit) (idr1 idr2 : Option Nat) (txh1 txh2 : Option String)
      (pkg1 pkg2 : Package),
      (completeRegistration p1 p2 isEmail emailRaw paraphrase salt1 ts1
        w1 a1 signer1 sgn1 anc1 idr1 txh1).package = some pkg1 →
      (completeRegistration p1 p2 isEmail emailRaw paraphrase salt2 ts2
        w2 a2 signer2 sgn2 anc2 idr2 txh2).package = some pkg2 →
      pkg1.email_hash = pkg2.email_hash ∧ pkg1.parahash = pkg2.parahash ∧
      pkg1.leaf = pkg2.leaf ∧ pkg1.root = pkg2.root := by
  intro p1 p2 isEmail emailRaw paraphrase salt1 ts1 salt2 ts2 w1 a1 w2 a2
    signer1 signer2 sgn1 sgn2 anc1 anc2 idr1 idr2 txh1 txh2 pkg1 pkg2 h1 h2
  obtain ⟨e1, q1, l1, r1, -⟩ := completeRegistration_package_spec p1 p2 isEmail emailRaw
    paraphrase salt1 ts1 w1 a1 signer1 sgn1 anc1 idr1 txh1 pkg1 h1
  obtain ⟨e2, q2, l2, r2, -⟩ := completeRegistration_package_spec p1 p2 isEmail emailRaw
    paraphrase salt2 ts2 w2 a2 signer2 sgn2 anc2 idr2 txh2 pkg2 h2
  have he : pkg1.email_hash = pkg2.email_hash := by rw [e1, e2]
  have hq : pkg1.parahash = pkg2.parahash := by rw [q1, q2]
  have hl : pkg1.leaf = pkg2.leaf := by
    rw [he, hq] at l1
    rw [l1] at l2
    injection l2
  exact ⟨he, hq, hl, by rw [r1, r2, hl]⟩

/-- Witness for C7: two concrete un-anchored runs of the same holder inputs
with different salts and timestamps. -/
theorem claimC7_same_inputs_same_commitment_witness :
    samplePkg.email_hash = samplePkg2.email_hash ∧ samplePkg.parahash = samplePkg2.parahash ∧
    samplePkg.leaf = samplePkg2.leaf ∧ samplePkg.root = samplePkg2.root :=
  claimC7_same_inputs_same_commitment (fun _ => 0) (fun _ _ => 1) (fun _ => true)
    "e@x.co" "Str0ng!Pass" "0xab" "T" "0xcd" "T2" false false false false
    "0xS" "0xS" (fun _ => "sig") (fun _ => "sig") (.ok ()) (.ok ()) none none none none
    samplePkg samplePkg2 (by decide) (by decide)

/- ===================== C8 ===================== -/

/-- Membership in a conditional singleton chunk of the error list. -/
theorem mem_ite_singleton {c : Prop} [Decidable c] (a s : String) :
    (a ∈ if c then [s] else []) ↔ c ∧ a = s := by
  split
  · rename_i h
    simp [h, eq_comm]
  · rename_i h
    simp [h]

/-- C8: the paraphrase policy check collects one label per failed category
(length ≥ 8, uppercase, lowercase, digit, special from the fixed set
!@#$%^&*) and rejects with a single response enumerating all of them; the
paraphrase "weak" is rejected listing exactly the four missing categories in
one 400 response. -/
theorem claimC8_policy_enumerates_all :
    (paraphraseStrengthErrs "weak" = ["≥8 chars", "uppercase", "digit", "special"] ∧
     completeRegistration (fun _ => 0) (fun _ _ => 1) (fun _ => true) "user@example.com" "weak"
       "0xab" "T" false false "0xS" (fun _ => "sig") (.ok ()) none none =
       { status := 400, success := false,
         error := some "Paraphrase needs: ≥8 chars, uppercase, digit, special" }) ∧
    (∀ p : String,
      (("≥8 chars" ∈ paraphraseStrengthErrs p) ↔ p.length < 8) ∧
      (("uppercase" ∈ paraphraseStrengthErrs p) ↔
        ¬ p.data.any (fun c => decide ('A' ≤ c ∧ c ≤ 'Z'))) ∧
      (("lowercase" ∈ paraphraseStrengthErrs p) ↔
        ¬ p.data.any (fun c => decide ('a' ≤ c ∧ c ≤ 'z'))) ∧
      (("digit" ∈ paraphraseStrengthErrs p) ↔
        ¬ p.data.any (fun c => decide ('0' ≤ c ∧ c ≤ '9'))) ∧
      (("special" ∈ paraphraseStrengthErrs p) ↔
        ¬ p.data.any (fun c => ['!', '@', '#', '$', '%', '^', '&', '*'].contains c))) ∧
    (∀ (p1 : Nat → Nat) (p2 : Nat → Nat → Nat) (isEmail : String → Bool)
       (emailRaw paraphrase saltHex timestampIso : String)
       (w a : Bool) (signer : String) (sgn : String → String)
       (anc : Except String Unit) (idr : Option Nat) (txh : Option String),
      isEmail (normalizeEmail emailRaw) = true → paraphraseStrengthErrs paraphrase ≠ [] →
      completeRegistration p1 p2 isEmail emailRaw paraphrase saltHex timestampIso
        w a signer sgn anc idr txh =
      { status := 400, success := false,
        error := some ("Paraphrase needs: " ++
          String.intercalate ", " (paraphraseStrengthErrs paraphrase)) }) := by
  refine ⟨⟨by decide, by decide⟩, ?_, ?_⟩
  · intro p
    refine ⟨?_, ?_, ?_, ?_, ?_⟩ <;>
      simp [paraphraseStrengthErrs, List.mem_append, mem_ite_singleton]
  · intro p1 p2 isEmail emailRaw paraphrase saltHex timestampIso w a signer sgn anc idr txh hmail herrs
    simp only [completeRegistration, hmail, if_neg, Bool.true_eq_false, not_false_eq_true,
      reduceIte, if_pos herrs]
    simp [herrs]

/-- Witness for C8: the general parts applied to the concrete paraphrase
"weak" and a concrete rejected registration. -/
theorem claimC8_policy_enumerates_all_witness :
    ((("≥8 chars" ∈ paraphraseStrengthErrs "weak") ↔ ("weak" : String).length < 8) ∧
      (("uppercase" ∈ paraphraseStrengthErrs "weak") ↔
        ¬ ("weak" : String).data.any (fun c => decide ('A' ≤ c ∧ c ≤ 'Z'))) ∧
      (("lowercase" ∈ paraphraseStrengthErrs "weak") ↔
        ¬ ("weak" : String).data.any (fun c => decide ('a' ≤ c ∧ c ≤ 'z'))) ∧
      (("digit" ∈ paraphraseStrengthErrs "weak") ↔
        ¬ ("weak" : String).data.any (fun c => decide ('0' ≤ c ∧ c ≤ '9'))) ∧
      (("special" ∈ paraphraseStrengthErrs "weak") ↔
        ¬ ("weak" : String).data.any (fun c => ['!', '@', '#', '$', '%', '^', '&', '*'].contains c))) ∧
    completeRegistration (fun _ => 0) (fun _ _ => 1) (fun _ => true) "e@x.co" "weak"
      "0xab" "T" false false "0xS" (fun _ => "sig") (.ok ()) none none =
    { status := 400, success := false,
      error := some ("Paraphrase needs: " ++
        String.intercalate ", " (paraphraseStrengthErrs "weak")) } :=
  ⟨claimC8_policy_enumerates_all.2.1 "weak",
   claimC8_policy_enumerates_all.2.2 (fun _ => 0) (fun _ _ => 1) (fun _ => true)
     "e@x.co" "weak" "0xab" "T" false false "0xS" (fun _ => "sig") (.ok ()) none none
     (by decide) (by decide)⟩

/- ===================== Decimal rendering round-trip ===================== -/

/-- Each digit character emitted for a value below 10 is an ASCII digit and
decodes back to the value. -/
theorem digitChar_digit (d : Nat) (h : d < 10) :
    (decide ('0' ≤ Nat.digitChar d ∧ Nat.digitChar d ≤ '9') = true) ∧
    (Nat.digitChar d).toNat - 48 = d := by
  interval_cases d <;> exact ⟨by decide, by decide⟩

/-- The accumulator of `Nat.toDigitsCore` is simply appended to the digits. -/
theorem toDigitsCore_append :
    ∀ (fuel n : Nat) (ds : List Char),
      Nat.toDigitsCore 10 fuel n ds = Nat.toDigitsCore 10 fuel n [] ++ ds := by
  intro fuel
  induction fuel with
  | zero => intro n ds; simp [Nat.toDigitsCore]
  | succ fuel ih =>
    intro n ds
    simp only [Nat.toDigitsCore]
    by_cases h : n / 10 = 0
    · simp [h]
    · simp only [if_neg h]
      rw [ih (n / 10) (Nat.digitChar (n % 10) :: ds), ih (n / 10) [Nat.digitChar (n % 10)]]
      simp

/-- Decoding the digits of `n` recovers `n`. -/
theorem parseDigitsVal_toDigitsCore :
    ∀ (fuel n : Nat), n < fuel → parseDigitsVal (Nat.toDigitsCore 10 fuel n []) = n := by
  intro fuel
  induction fuel with
  | zero => intro n h; omega
  | succ fuel ih =>
    intro n h
    simp only [Nat.toDigitsCore]
    by_cases h0 : n / 10 = 0
    · have hlt : n < 10 := by omega
      simp only [if_pos h0, parseDigitsVal, List.foldl_cons, List.foldl_nil]
      have := (digitChar_digit (n % 10) (Nat.mod_lt n (by norm_num))).2
      omega
    · simp only [if_neg h0]
      rw [toDigitsCore_append fuel (n / 10) [Nat.digitChar (n % 10)]]
      have hih : parseDigitsVal (Nat.toDigitsCore 10 fuel (n / 10) []) = n / 10 := by
        apply ih
        omega
      simp only [parseDigitsVal, List.foldl_append] at *
      rw [hih]
      simp only [List.foldl_cons, List.foldl_nil]
      have := (digitChar_digit (n % 10) (Nat.mod_lt n (by omega))).2
      omega

/-- Every character `Nat.toDigitsCore` prepends is an ASCII digit. -/
theorem toDigitsCore_all_digits :
    ∀ (fuel n : Nat) (ds : List Char),
      (∀ c ∈ ds, decide ('0' ≤ c ∧ c ≤ '9') = true) →
      ∀ c ∈ Nat.toDigitsCore 10 fuel n ds, decide ('0' ≤ c ∧ c ≤ '9') = true := by
  intro fuel
  induction fuel with
  | zero => intro n ds hds; simpa [Nat.toDigitsCore] using hds
  | succ fuel ih =>
    intro n ds hds
    have hd : ∀ c ∈ Nat.digitChar (n % 10) :: ds, decide ('0' ≤ c ∧ c ≤ '9') = true := by
      intro c hc
      rcases List.mem_cons.mp hc with h | h
      · subst h
        exact (digitChar_digit (n % 10) (Nat.mod_lt n (by norm_num))).1
      · exact hds c h
    simp only [Nat.toDigitsCore]
    by_cases h0 : n / 10 = 0
    · simpa [h0] using hd
    · simp only [if_neg h0]
      exact ih (n / 10) (Nat.digitChar (n % 10) :: ds) hd

/-- The digit list of a positive number is nonempty. -/
theorem toDigits_ne_nil (n : Nat) : Nat.toDigits 10 n ≠ [] := by
  simp only [Nat.toDigits, Nat.toDigitsCore]
  by_cases h0 : n / 10 = 0
  · simp [h0]
  · simp only [if_neg h0]
    rw [toDigitsCore_append n (n / 10) [Nat.digitChar (n % 10)]]
    simp

/-- Leading zero characters do not change the decoded value. -/
theorem parseDigitsVal_replicate (k : Nat) (cs : List Char) :
    parseDigitsVal (List.replicate k '0' ++ cs) = parseDigitsVal cs := by
  induction k with
  | zero => simp
  | succ k ih =>
    simpa [parseDigitsVal, List.replicate_succ] using ih

/-- The UNIQ display string of a positive id parses back to the id through
the login path's regex-and-Number conversion. -/
theorem parseUniq_display (n : Nat) :
    parseUniq ("UNIQ-" ++ padStartSix (Nat.repr n)) = some n := by
  have hdata : ("UNIQ-" ++ padStartSix (Nat.repr n)).data =
      'U' :: 'N' :: 'I' :: 'Q' :: '-' ::
        (List.replicate (6 - (Nat.repr n).length) '0' ++ Nat.toDigits 10 n) := by
    simp [String.data_append, padStartSix, Nat.repr, List.asString]
  simp only [parseUniq, hdata]
  have hne : List.replicate (6 - (Nat.repr n).length) '0' ++ Nat.toDigits 10 n ≠ [] := by
    intro hcontra
    exact toDigits_ne_nil n (List.append_eq_nil.mp hcontra).2
  have hall : (List.replicate (6 - (Nat.repr n).length) '0' ++ Nat.toDigits 10 n).all
      (fun c => decide ('0' ≤ c ∧ c ≤ '9')) = true := by
    rw [List.all_eq_true]
    intro c hc
    rcases List.mem_append.mp hc with hrep | hdig
    · have := List.eq_of_mem_replicate hrep
      subst this
      decide
    · exact toDigitsCore_all_digits (n + 1) n [] (by simp) c hdig
  rw [if_pos ⟨hne, hall⟩]
  rw [parseDigitsVal_replicate]
  rw [show Nat.toDigits 10 n = Nat.toDigitsCore 10 (n + 1) n [] from rfl,
    parseDigitsVal_toDigitsCore (n + 1) n (Nat.lt_succ_self n)]

/- ===================== C9 ===================== -/

/-- C9 counterexample: the display form the registration handler produces is
"UNIQ-" + 6-digit zero-padded id, not "ID-…", and the login parser rejects
the "ID-…" form outright (while also accepting unpadded "UNIQ-" digit
strings). -/
theorem claimC9_counterexample :
    ((completeRegistration (fun _ => 0) (fun _ _ => 1) (fun _ => true) "e@x.co" "Str0ng!Pass"
        "0xab" "T" true true "0xS" (fun _ => "sig") (.ok ()) (some 123)
        (some "0xtx")).package.map Package.uniq_id) = some (some "UNIQ-000123") ∧
    ("UNIQ-000123" : String) ≠ "ID-000123" ∧
    parseUniq "ID-000123" = none ∧
    parseUniq "UNIQ-7" = some 7 := by
  exact ⟨by decide, by decide, by decide, by decide⟩

/-- C9 amended: the display form is "UNIQ-" followed by the 6-digit
zero-padded decimal id, and the login path parses any "UNIQ-" + digits form
back to the numeric id — in particular it round-trips every positive
display form the registration handler emits. -/
theorem claimC9_uniq_display_form :
    (∀ (p1 : Nat → Nat) (p2 : Nat → Nat → Nat) (isEmail : String → Bool)
       (emailRaw paraphrase saltHex timestampIso : String)
       (signer : String) (sgn : String → String) (anc : Except String Unit)
       (txh : Option String) (n : Nat) (pkg : Package),
      (completeRegistration p1 p2 isEmail emailRaw paraphrase saltHex timestampIso
        true true signer sgn anc (some n) txh).package = some pkg →
      pkg.uniq_id = some ("UNIQ-" ++ padStartSix (Nat.repr n))) ∧
    (∀ n : Nat, 0 < n → parseUniq ("UNIQ-" ++ padStartSix (Nat.repr n)) = some n) := by
  constructor
  · intro p1 p2 isEmail emailRaw paraphrase saltHex timestampIso signer sgn anc txh n pkg h
    obtain ⟨-, -, -, -, -, -, -, -, -, h10⟩ := completeRegistration_package_spec p1 p2 isEmail
      emailRaw paraphrase saltHex timestampIso true true signer sgn anc (some n) txh pkg h
    simpa using h10
  · exact fun n _ => parseUniq_display n

/-- Witness for C9: the amended statement applied at the concrete anchored
registration with recovered id 123. -/
theorem claimC9_uniq_display_form_witness :
    samplePkgAnchored.uniq_id = some ("UNIQ-" ++ padStartSix (Nat.repr 123)) ∧
    parseUniq ("UNIQ-" ++ padStartSix (Nat.repr 123)) = some 123 :=
  ⟨claimC9_uniq_display_form.1 (fun _ => 0) (fun _ _ => 1) (fun _ => true)
      "e@x.co" "Str0ng!Pass" "0xab" "T" "0xS" (fun _ => "sig") (.ok ()) (some "0xtx")
      123 samplePkgAnchored (by decide),
   claimC9_uniq_display_form.2 123 (by norm_num)⟩

/- ===================== C10 ===================== -/

/-- A missing (absent or null) required field short-circuits loginHandler
into the 400 missing-field response with no session. -/
theorem loginHandler_missing (L : Ledger) (prov : Bool)
    (recover : String → String → Option String) (lp : LoginPkg) (f : String)
    (h : missingField lp = some f) :
    loginHandler L prov recover lp =
      { status := 400, success := false,
        error := some ("Missing package field: " ++ f), session := none } := by
  simp [loginHandler, h]

/-- C10: the login handler rejects, with a missing-field 400 and no session,
any presented package whose ten required fields are not all present and
non-null (the required loop checks exactly those ten, in order); consequently
the packages the registration handler itself returns with null fields — no
signing wallet configured (signer and signature null) or id recovery failed
after anchoring (uniq_id null) — can never produce a session. -/
theorem claimC10_null_fields_never_session :
    (∀ (L : Ledger) (prov : Bool) (recover : String → String → Option String)
       (lp : LoginPkg) (f : String), missingField lp = some f →
      loginHandler L prov recover lp =
        { status := 400, success := false,
          error := some ("Missing package field: " ++ f), session := none }) ∧
    (∀ lp : LoginPkg, missingField lp = none ↔
      (lp.uniq_id ≠ none ∧ lp.email_hash ≠ none ∧ lp.parahash ≠ none ∧ lp.salt ≠ none ∧
       lp.timestamp ≠ none ∧ lp.root ≠ none ∧ lp.leaf ≠ none ∧ lp.proof ≠ none ∧
       lp.signer ≠ none ∧ lp.signature ≠ none)) ∧
    (∀ (p1 : Nat → Nat) (p2 : Nat → Nat → Nat) (isEmail : String → Bool)
       (emailRaw paraphrase saltHex timestampIso : String) (addrPresent : Bool)
       (signer : String) (sgn : String → String) (anc : Except String Unit)
       (idr : Option Nat) (txh : Option String) (pkg : Package)
       (L : Ledger) (prov : Bool) (recover : String → String → Option String),
      (completeRegistration p1 p2 isEmail emailRaw paraphrase saltHex timestampIso
        false addrPresent signer sgn anc idr txh).package = some pkg →
      pkg.signer = none ∧ pkg.signature = none ∧
      loginHandler L prov recover (packageToLogin pkg) =
        { status := 400, success := false,
          error := some ("Missing package field: " ++ "uniq_id"), session := none }) ∧
    (∀ (p1 : Nat → Nat) (p2 : Nat → Nat → Nat) (isEmail : String → Bool)
       (emailRaw paraphrase saltHex timestampIso : String)
       (signer : String) (sgn : String → String) (txh : Option String) (pkg : Package)
       (L : Ledger) (prov : Bool) (recover : String → String → Option String),
      (completeRegistration p1 p2 isEmail emailRaw paraphrase saltHex timestampIso
        true true signer sgn (.ok ()) none txh).package = some pkg →
      pkg.uniq_id = none ∧
      loginHandler L prov recover (packageToLogin pkg) =
        { status := 400, success := false,
          error := some ("Missing package field: " ++ "uniq_id"), session := none }) := by
  refine ⟨loginHandler_missing, ?_, ?_, ?_⟩
  · intro lp
    unfold missingField
    split_ifs <;> simp_all
  · intro p1 p2 isEmail emailRaw paraphrase saltHex timestampIso a signer sgn anc idr txh
      pkg L prov recover h
    obtain ⟨-, -, -, -, -, -, -, h8, h9, h10⟩ := completeRegistration_package_spec p1 p2 isEmail
      emailRaw paraphrase saltHex timestampIso false a signer sgn anc idr txh pkg h
    have huniq : pkg.uniq_id = none := by simpa using h10
    refine ⟨by simpa using h8, by simpa using h9, ?_⟩
    apply loginHandler_missing
    simp [missingField, packageToLogin, huniq]
  · intro p1 p2 isEmail emailRaw paraphrase saltHex timestampIso signer sgn txh
      pkg L prov recover h
    obtain ⟨-, -, -, -, -, -, -, -, -, h10⟩ := completeRegistration_package_spec p1 p2 isEmail
      emailRaw paraphrase saltHex timestampIso true true signer sgn (.ok ()) none txh pkg h
    have huniq : pkg.uniq_id = none := by simpa using h10
    refine ⟨huniq, ?_⟩
    apply loginHandler_missing
    simp [missingField, packageToLogin, huniq]

/-- Witness for C10: a login request with a null salt, the completeness iff
at a concrete package, and the two registration-produced null-field packages
(wallet-less run and failed id recovery) fed back into login. -/
theorem claimC10_null_fields_never_session_witness :
    (loginHandler (singleRootLedger 5) true (fun _ _ => some "0xa")
      { sampleLoginPkgId2 with salt := none } =
      { status := 400, success := false,
        error := some ("Missing package field: " ++ "salt"), session := none }) ∧
    (missingField sampleLoginPkgId2 = none ↔
      (sampleLoginPkgId2.uniq_id ≠ none ∧ sampleLoginPkgId2.email_hash ≠ none ∧
       sampleLoginPkgId2.parahash ≠ none ∧ sampleLoginPkgId2.salt ≠ none ∧
       sampleLoginPkgId2.timestamp ≠ none ∧ sampleLoginPkgId2.root ≠ none ∧
       sampleLoginPkgId2.leaf ≠ none ∧ sampleLoginPkgId2.proof ≠ none ∧
       sampleLoginPkgId2.signer ≠ none ∧ sampleLoginPkgId2.signature ≠ none)) ∧
    (samplePkg.signer = none ∧ samplePkg.signature = none ∧
      loginHandler (singleRootLedger 5) true (fun _ _ => some "0xa") (packageToLogin samplePkg) =
      { status := 400, success := false,
        error := some ("Missing package field: " ++ "uniq_id"), session := none }) ∧
    (samplePkgNoId.uniq_id = none ∧
      loginHandler (singleRootLedger 5) true (fun _ _ => some "0xa") (packageToLogin samplePkgNoId) =
      { status := 400, success := false,
        error := some ("Missing package field: " ++ "uniq_id"), session := none }) :=
  ⟨claimC10_null_fields_never_session.1 (singleRootLedger 5) true (fun _ _ => some "0xa")
      { sampleLoginPkgId2 with salt := none } "salt" (by decide),
   claimC10_null_fields_never_session.2.1 sampleLoginPkgId2,
   claimC10_null_fields_never_session.2.2.1 (fun _ => 0) (fun _ _ => 1) (fun _ => true)
      "e@x.co" "Str0ng!Pass" "0xab" "T" false "0xS" (fun _ => "sig") (.ok ()) none none
      samplePkg (singleRootLedger 5) true (fun _ _ => some "0xa") (by decide),
   claimC10_null_fields_never_session.2.2.2 (fun _ => 0) (fun _ _ => 1) (fun _ => true)
      "e@x.co" "Str0ng!Pass" "0xab" "T" "0xS" (fun _ => "sig") none
      samplePkgNoId (singleRootLedger 5) true (fun _ _ => some "0xa") (by decide)⟩

/- ===================== C2 (counterexample part) ===================== -/

/-- C2 counterexample: `verifyUser` does not fold with the Commitment
Builder's convention (left operand = lower tree index). Anchor the root
keccak256(bytes32(1) ‖ bytes32(2)) under id 1: the contract accepts leaf 2
with proof [1] (OpenZeppelin sorts the pair by value, placing 1 left), yet
the index-ordered fold for a leaf at position 0 — even granting the
contract's own keccak pair hash, in place of the builder's Poseidon — yields
keccak256(bytes32(2) ‖ bytes32(1)), which is not the stored root; likewise
the contract accepts leaf 1 with proof [2], which the index-ordered fold at
position 1 rejects. So the claimed "true iff the convention-folded candidate
root equals the stored root" fails in both positions. -/
theorem claimC2_counterexample :
    verifyUser (singleRootLedger (keccakPacked 1 2)) 1 2 [1] = .ok true ∧
    specConventionFold keccakPacked 0 [1] 2 ≠ (singleRootLedger (keccakPacked 1 2)).roots 1 ∧
    verifyUser (singleRootLedger (keccakPacked 1 2)) 1 1 [2] = .ok true ∧
    specConventionFold keccakPacked 1 [2] 1 ≠ (singleRootLedger (keccakPacked 1 2)).roots 1 := by
  refine ⟨by decide, by decide, by decide, by decide⟩
